import Mathlib

/-!
Shallow embedding of the cocktailsAPI repository: a CRUD REST API over a
document store with three collections (`cocktails`, `ingredients`,
`cocktail_ingredients`) and one controller per resource
(`CocktailsController`, `IngredientsController`,
`CocktailIngredientsController`).

Modelling conventions:
* A store-native identifier (Mongo ObjectId) is embedded as a `String`;
  `isValidObjectId` mirrors `mongoose.Types.ObjectId.isValid` on strings,
  which accepts a 24-character hexadecimal string or any 12-character
  string (treated as 12 raw bytes).
* Query-string parameters are `Option String` (`none` = absent); the
  JavaScript truthiness test `if (param)` on such a value is `truthy`
  (absent and the empty string are falsy).
* JSON body values that undergo a `typeof` check are embedded as `Val`
  (string or boolean); body fields that the code only tests for
  truthiness and then stores at their schema type are embedded directly
  at that type.
* Each handler is a pure function from the store (plus request data) to a
  `Response`; handlers that write also return the updated store.
  `response.ok/created/badRequest/notFound/internalServerError` become
  the `Response` constructors.
* `populate(...)` only changes the serialized shape of returned rows
  (embedding the referenced documents); it is dropped, the rows
  themselves are returned.
* Mongo document timestamps are irrelevant to every verified claim except
  the `sort=date` mapping to `createdAt`, so only `Cocktail.createdAt`
  is kept.
-/

namespace CocktailsAPI

/-- Hexadecimal character test, as in bson's `/^[0-9a-fA-F]{24}$/`. -/
def isHexChar (c : Char) : Bool :=
  (48 ≤ c.toNat && c.toNat ≤ 57) || (97 ≤ c.toNat && c.toNat ≤ 102) ||
    (65 ≤ c.toNat && c.toNat ≤ 70)

/-- A 24-character hexadecimal string (the canonical ObjectId text form). -/
def is24Hex (s : String) : Bool :=
  s.data.length == 24 && s.data.all isHexChar

/-- `mongoose.Types.ObjectId.isValid` on a string argument: a 24-character
hex string, or any 12-character string (interpreted as 12 raw bytes). -/
def isValidObjectId (s : String) : Bool :=
  s.data.length == 12 || is24Hex s

/-- Cocktail document (`CocktailSchema`): `name`, `category`,
`instructions` all required strings; `createdAt` from `timestamps`. -/
structure Cocktail where
  id : String
  name : String
  category : String
  instructions : String
  createdAt : Nat
deriving Repr, DecidableEq

/-- Ingredient document (`IngredientSchema`): required `name` and
`isAlcoholic`, optional `description` and `image`. -/
structure Ingredient where
  id : String
  name : String
  description : Option String
  isAlcoholic : Bool
  image : Option String
deriving Repr, DecidableEq

/-- Join document (`CocktailIngredientSchema`): required `cocktailId`,
`ingredientId`, `quantity`. -/
structure CocktailIngredient where
  id : String
  cocktailId : String
  ingredientId : String
  quantity : String
deriving Repr, DecidableEq

/-- The document store: the three collections. -/
structure Store where
  cocktails : List Cocktail
  ingredients : List Ingredient
  cocktailIngredients : List CocktailIngredient
deriving Repr, DecidableEq

/-- HTTP outcome of a handler, by the Adonis response helper used. -/
inductive Response (α : Type) where
  | ok (body : α)
  | created (body : α)
  | badRequest (message : String)
  | notFound (message : String)
  | serverError (message : String)
deriving Repr, DecidableEq

def Response.isOk {α : Type} : Response α → Bool
  | .ok _ => true
  | _ => false

def Response.isCreated {α : Type} : Response α → Bool
  | .created _ => true
  | _ => false

def Response.isBadRequest {α : Type} : Response α → Bool
  | .badRequest _ => true
  | _ => false

def Response.isNotFound {α : Type} : Response α → Bool
  | .notFound _ => true
  | _ => false

/-- A JSON body value, where the code distinguishes strings from
booleans (`typeof data.isAlcoholic !== 'boolean'`). -/
inductive Val where
  | vStr (s : String)
  | vBool (b : Bool)
deriving Repr, DecidableEq

/-- JavaScript truthiness of a possibly-absent body value: absent, the
empty string and `false` are falsy. -/
def truthyVal : Option Val → Bool
  | none => false
  | some (.vStr s) => !(s == "")
  | some (.vBool b) => b

/-- `typeof v === 'boolean'` on a possibly-absent body value. -/
def isBoolVal : Option Val → Bool
  | some (.vBool _) => true
  | _ => false

/-- Mongoose's cast of a primitive to a `String` schema field. -/
def valToString : Val → String
  | .vStr s => s
  | .vBool b => if b then "true" else "false"

/-- The boolean carried by a body value, for a field that passed the
`typeof` check. -/
def boolOf : Option Val → Bool
  | some (.vBool b) => b
  | _ => false

/-- The string value of a query parameter (absent reads as empty). -/
def qval (o : Option String) : String := o.getD ""

/-- JavaScript truthiness of a query-string parameter: absent and the
empty string are falsy. -/
def truthy (o : Option String) : Bool := !(qval o == "")

/-- The `_id` constraint of the dynamically built Mongo query object:
absent, `{ $in: ids }`, or `{ $nin: ids }`. -/
inductive IdFilter where
  | all
  | inIds (ids : List String)
  | ninIds (ids : List String)
deriving Repr, DecidableEq

/-- Whether a document id satisfies the `_id` constraint. -/
def matchesId : IdFilter → String → Bool
  | .all, _ => true
  | .inIds l, i => l.contains i
  | .ninIds l, i => !(l.contains i)

/-- Byte-order lexicographic comparison on character lists (Mongo's
default binary collation restricted to the code-point order). -/
def lexLe : List Char → List Char → Bool
  | [], _ => true
  | _ :: _, [] => false
  | a :: as, b :: bs =>
    if a.toNat < b.toNat then true
    else if b.toNat < a.toNat then false
    else lexLe as bs

/-- Lexicographic comparison of strings. -/
def strLe (a b : String) : Bool := lexLe a.data b.data

/-- Ordered insertion for the ascending sort. -/
def insertLe {α : Type} (le : α → α → Bool) (a : α) : List α → List α
  | [] => [a]
  | b :: bs => if le a b then a :: b :: bs else b :: insertLe le a bs

/-- Ascending sort (models Mongo's `sort({ field: 1 })`). -/
def sortBy {α : Type} (le : α → α → Bool) : List α → List α
  | [] => []
  | a :: as => insertLe le a (sortBy le as)

/-- The own properties of the `sortOptions` object literal of
`CocktailsController.index`: they map the `sort` query value to the
document field sorted on. -/
def sortFieldOwn : String → Option String
  | "name" => some "name"
  | "category" => some "category"
  | "date" => some "createdAt"
  | _ => none

/-- Whether the key names a property the `sortOptions` object literal
inherits from `Object.prototype`. Each of these is a function (or, for
`__proto__`, the prototype object itself), hence truthy, so
`!sortOptions[sort]` is false for them and the 400 branch is skipped. -/
def protoKey (s : String) : Bool :=
  s == "constructor" || s == "hasOwnProperty" || s == "isPrototypeOf" ||
    s == "propertyIsEnumerable" || s == "toLocaleString" || s == "toString" ||
    s == "valueOf" || s == "__defineGetter__" || s == "__defineSetter__" ||
    s == "__lookupGetter__" || s == "__lookupSetter__" || s == "__proto__"

/-- Truthiness of the JavaScript lookup `sortOptions[sort]`: an own
property maps to a non-empty string, and an inherited `Object.prototype`
property is a function or object — both truthy. -/
def sortLookupTruthy (v : String) : Bool :=
  (sortFieldOwn v).isSome || protoKey v

/-- Ascending comparison of two cocktails on a document field. -/
def cocktailLe (field : String) (a b : Cocktail) : Bool :=
  if field == "name" then strLe a.name b.name
  else if field == "category" then strLe a.category b.category
  else a.createdAt ≤ b.createdAt

/-- `cocktailsQuery.sort({ [sortOptions[sort]]: 1 })` when a sort was
requested, identity otherwise. For an inherited `Object.prototype`
property the computed key is the stringified function (or
`"[object Object]"` for `__proto__`), a field path absent from every
document, so all sort keys compare equal and the order is unchanged. -/
def applySort (sort : Option String) (l : List Cocktail) : List Cocktail :=
  match sortFieldOwn (qval sort) with
  | some f => sortBy (cocktailLe f) l
  | none => l

/-- The shared tail of every list handler: 404 on an empty result set,
200 with the list otherwise. -/
def listResponse {α : Type} (msg : String) (l : List α) : Response (List α) :=
  if l.isEmpty then .notFound msg else .ok l

/-- `CocktailIngredient.find({ ingredientId }).distinct('cocktailId')`. -/
def cocktailIdsOfIngredient (s : Store) (iid : String) : List String :=
  ((s.cocktailIngredients.filter (fun ci => ci.ingredientId == iid)).map
    (fun ci => ci.cocktailId)).dedup

/-- `Ingredient.find({ isAlcoholic: true }).distinct('_id')`. -/
def alcoholicIngredientIds (s : Store) : List String :=
  ((s.ingredients.filter (fun i => i.isAlcoholic)).map (fun i => i.id)).dedup

/-- The cocktail ids linked to at least one alcoholic ingredient:
`CocktailIngredient.find({ ingredientId: { $in: alcoholicIngredientIds } })
  .distinct('cocktailId')`. -/
def alcoholicCocktailIds (s : Store) : List String :=
  ((s.cocktailIngredients.filter
      (fun ci => (alcoholicIngredientIds s).contains ci.ingredientId)).map
    (fun ci => ci.cocktailId)).dedup

/-- The `_id` constraint built by `CocktailsController.index`: the
`ingredient` branch writes `query._id` first, then the `isAlcoholic`
branch overwrites the same field when present. -/
def cocktailsIndexFilter (s : Store) (ingredient isAlcoholic : Option String) :
    IdFilter :=
  let q1 : IdFilter :=
    if truthy ingredient then .inIds (cocktailIdsOfIngredient s (qval ingredient))
    else .all
  if truthy isAlcoholic then
    if qval isAlcoholic == "true" then .inIds (alcoholicCocktailIds s)
    else .ninIds (alcoholicCocktailIds s)
  else q1

namespace CocktailsController

/-- `GET /cocktails` (`CocktailsController.index`). -/
def index (s : Store) (ingredient isAlcoholic sort : Option String) :
    Response (List Cocktail) :=
  if truthy ingredient && !isValidObjectId (qval ingredient) then
    .badRequest "Invalid ingredient ID format"
  else if truthy sort && !sortLookupTruthy (qval sort) then
    .badRequest "Invalid sort parameter. Valid options are: name, category, date"
  else
    listResponse "No cocktails found matching the filters"
      (applySort sort
        (s.cocktails.filter
          (fun c => matchesId (cocktailsIndexFilter s ingredient isAlcoholic) c.id)))

/-- `GET /cocktails/:id` (`CocktailsController.show`). -/
def showById (s : Store) (id : String) : Response Cocktail :=
  if !isValidObjectId id then .badRequest "Invalid ID format"
  else
    match s.cocktails.find? (fun c => c.id == id) with
    | none => .notFound "Cocktail not found"
    | some c => .ok c

/-- `PUT /cocktails/:id` (`CocktailsController.update`):
`findByIdAndUpdate` with the fields present in the body, `{ new: true }`. -/
def update (s : Store) (id : String) (name category instructions : Option String) :
    Response Cocktail × Store :=
  if !isValidObjectId id then (.badRequest "Invalid ID format", s)
  else
    let upd : Cocktail → Cocktail := fun c =>
      { c with
        name := name.getD c.name
        category := category.getD c.category
        instructions := instructions.getD c.instructions }
    match s.cocktails.find? (fun c => c.id == id) with
    | none => (.notFound "Cocktail not found", s)
    | some c =>
      (.ok (upd c),
        { s with cocktails := s.cocktails.map (fun x => if x.id == id then upd x else x) })

/-- `DELETE /cocktails/:id` (`CocktailsController.destroy`):
`findByIdAndDelete`, then
`CocktailIngredient.deleteMany({ cocktailId: cocktail._id })`. -/
def destroy (s : Store) (id : String) : Response String × Store :=
  if !isValidObjectId id then (.badRequest "Invalid ID format", s)
  else
    match s.cocktails.find? (fun c => c.id == id) with
    | none => (.notFound "Cocktail not found", s)
    | some c =>
      (.ok "Cocktail and its ingredients were deleted successfully",
        { s with
          cocktails := s.cocktails.filter (fun x => !(x.id == id))
          cocktailIngredients :=
            s.cocktailIngredients.filter (fun ci => !(ci.cocktailId == c.id)) })

end CocktailsController

namespace IngredientsController

/-- `GET /ingredients` (`IngredientsController.index`): `Ingredient.find()`
with no filters and no empty-result check. -/
def index (s : Store) : Response (List Ingredient) :=
  .ok s.ingredients

/-- `POST /ingredients` (`IngredientsController.store`): truthiness checks
on `name`, `description`, `image`, a `typeof` boolean check on
`isAlcoholic`, then `Ingredient.create`. -/
def store (s : Store) (newId : String) (name description isAlcoholic image : Option Val) :
    Response Ingredient × Store :=
  if !truthyVal name || !truthyVal description || !isBoolVal isAlcoholic ||
      !truthyVal image then
    (.badRequest "Missing required fields: name, description, isAlcoholic, image", s)
  else
    let ing : Ingredient :=
      { id := newId
        name := valToString (name.getD (.vStr ""))
        description := some (valToString (description.getD (.vStr "")))
        isAlcoholic := boolOf isAlcoholic
        image := some (valToString (image.getD (.vStr ""))) }
    (.created ing, { s with ingredients := s.ingredients ++ [ing] })

/-- `GET /ingredients/:id` (`IngredientsController.show`). -/
def showById (s : Store) (id : String) : Response Ingredient :=
  if !isValidObjectId id then .badRequest "Invalid ID format"
  else
    match s.ingredients.find? (fun i => i.id == id) with
    | none => .notFound "Ingredient not found"
    | some i => .ok i

/-- `PUT /ingredients/:id` (`IngredientsController.update`); the body
fields are embedded at their schema types (post mongoose cast). -/
def update (s : Store) (id : String) (name description : Option String)
    (isAlcoholic : Option Bool) (image : Option String) :
    Response Ingredient × Store :=
  if !isValidObjectId id then (.badRequest "Invalid ID format", s)
  else
    let upd : Ingredient → Ingredient := fun i =>
      { i with
        name := name.getD i.name
        description := (description.map some).getD i.description
        isAlcoholic := isAlcoholic.getD i.isAlcoholic
        image := (image.map some).getD i.image }
    match s.ingredients.find? (fun i => i.id == id) with
    | none => (.notFound "Ingredient not found", s)
    | some i =>
      (.ok (upd i),
        { s with ingredients := s.ingredients.map (fun x => if x.id == id then upd x else x) })

/-- `DELETE /ingredients/:id` (`IngredientsController.destroy`):
`findByIdAndDelete`, then
`CocktailIngredient.deleteMany({ ingredientId: ingredient._id })`. -/
def destroy (s : Store) (id : String) : Response String × Store :=
  if !isValidObjectId id then (.badRequest "Invalid ID format", s)
  else
    match s.ingredients.find? (fun i => i.id == id) with
    | none => (.notFound "Ingredient not found", s)
    | some i =>
      (.ok "Ingredient deleted successfully",
        { s with
          ingredients := s.ingredients.filter (fun x => !(x.id == id))
          cocktailIngredients :=
            s.cocktailIngredients.filter (fun ci => !(ci.ingredientId == i.id)) })

end IngredientsController

/-- The `_id` constraint built by `CocktailIngredientsController.index`:
the `cocktailId` branch writes `query._id` first, then the `ingredientId`
branch overwrites the same field when present. The `$in` lists hold the
documents returned by the inner `find`, which Mongo matches by their
`_id`. -/
def ciIndexFilter (s : Store) (cocktailId ingredientId : Option String) : IdFilter :=
  let q1 : IdFilter :=
    if truthy cocktailId then
      .inIds ((s.cocktailIngredients.filter
          (fun ci => ci.cocktailId == qval cocktailId)).map (fun ci => ci.id))
    else .all
  if truthy ingredientId then
    .inIds ((s.cocktailIngredients.filter
        (fun ci => ci.ingredientId == qval ingredientId)).map (fun ci => ci.id))
  else q1

namespace CocktailIngredientsController

/-- `GET /cocktail-ingredients` (`CocktailIngredientsController.index`). -/
def index (s : Store) (cocktailId ingredientId : Option String) :
    Response (List CocktailIngredient) :=
  if truthy cocktailId && !isValidObjectId (qval cocktailId) then
    .badRequest "Invalid cocktail ID format"
  else if truthy ingredientId && !isValidObjectId (qval ingredientId) then
    .badRequest "Invalid ingredient ID format"
  else
    listResponse "No cocktail ingredients found matching the filters"
      (s.cocktailIngredients.filter
        (fun ci => matchesId (ciIndexFilter s cocktailId ingredientId) ci.id))

/-- `POST /cocktail-ingredients` (`CocktailIngredientsController.store`):
required-field truthiness, id format validation, existence checks on both
referenced entities, then `CocktailIngredient.create`. -/
def store (s : Store) (newId : String) (cocktailId ingredientId quantity : Option String) :
    Response CocktailIngredient × Store :=
  if !truthy cocktailId || !truthy ingredientId || !truthy quantity then
    (.badRequest "Missing required fields: cocktailId, ingredientId, quantity", s)
  else if !isValidObjectId (qval cocktailId) then
    (.badRequest "Invalid cocktail ID format", s)
  else if !isValidObjectId (qval ingredientId) then
    (.badRequest "Invalid ingredient ID format", s)
  else if (s.cocktails.find? (fun c => c.id == qval cocktailId)).isNone then
    (.notFound "Cocktail not found in database", s)
  else if (s.ingredients.find? (fun i => i.id == qval ingredientId)).isNone then
    (.notFound "Ingredient not found in database", s)
  else
    let row : CocktailIngredient :=
      { id := newId
        cocktailId := qval cocktailId
        ingredientId := qval ingredientId
        quantity := qval quantity }
    (.created row, { s with cocktailIngredients := s.cocktailIngredients ++ [row] })

/-- `GET /cocktail-ingredients/:id` (`CocktailIngredientsController.show`). -/
def showById (s : Store) (id : String) : Response CocktailIngredient :=
  if !isValidObjectId id then .badRequest "Invalid ID format"
  else
    match s.cocktailIngredients.find? (fun ci => ci.id == id) with
    | none => .notFound "Cocktail ingredient not found"
    | some ci => .ok ci

/-- `PUT /cocktail-ingredients/:id` (`CocktailIngredientsController.update`):
`findByIdAndUpdate` with whichever of `cocktailId`, `ingredientId`,
`quantity` the body carries; no existence check on the referenced ids.
Mongoose's cast of an id value that is not a valid ObjectId throws a
`CastError`, which the handler's catch turns into a 500. -/
def update (s : Store) (id : String) (cocktailId ingredientId quantity : Option String) :
    Response CocktailIngredient × Store :=
  if !isValidObjectId id then (.badRequest "Invalid ID format", s)
  else if (cocktailId.map (fun v => !isValidObjectId v)).getD false ||
      (ingredientId.map (fun v => !isValidObjectId v)).getD false then
    (.serverError "Error updating cocktail ingredient", s)
  else
    let upd : CocktailIngredient → CocktailIngredient := fun r =>
      { r with
        cocktailId := cocktailId.getD r.cocktailId
        ingredientId := ingredientId.getD r.ingredientId
        quantity := quantity.getD r.quantity }
    match s.cocktailIngredients.find? (fun r => r.id == id) with
    | none => (.notFound "Cocktail ingredient not found", s)
    | some r =>
      (.ok (upd r),
        { s with
          cocktailIngredients :=
            s.cocktailIngredients.map (fun x => if x.id == id then upd x else x) })

/-- `DELETE /cocktail-ingredients/:id`
(`CocktailIngredientsController.destroy`). -/
def destroy (s : Store) (id : String) : Response String × Store :=
  if !isValidObjectId id then (.badRequest "Invalid ID format", s)
  else
    match s.cocktailIngredients.find? (fun ci => ci.id == id) with
    | none => (.notFound "Cocktail ingredient not found", s)
    | some _ =>
      (.ok "Cocktail ingredient deleted successfully",
        { s with
          cocktailIngredients := s.cocktailIngredients.filter (fun x => !(x.id == id)) })

end CocktailIngredientsController

/-! ### Helper lemmas -/

theorem contains_iff {α : Type} [BEq α] [LawfulBEq α] {l : List α} {a : α} :
    l.contains a = true ↔ a ∈ l := by
  simp [List.contains, List.elem_iff]

theorem isValidObjectId_ne_empty {s : String} (h : isValidObjectId s = true) :
    s ≠ "" := by
  intro he
  subst he
  exact absurd h (by decide)

theorem isValidObjectId_eq_false {s : String} (h24 : is24Hex s = false)
    (h12 : s.data.length ≠ 12) : isValidObjectId s = false := by
  simp [isValidObjectId, h24]
  exact h12

theorem lexLe_trans :
    ∀ xs ys zs : List Char, lexLe xs ys = true → lexLe ys zs = true →
      lexLe xs zs = true := by
  intro xs
  induction xs with
  | nil => intro ys zs _ _; simp [lexLe]
  | cons a as ih =>
    intro ys zs h1 h2
    cases ys with
    | nil => simp [lexLe] at h1
    | cons b bs =>
      cases zs with
      | nil => simp [lexLe] at h2
      | cons c cs =>
        simp only [lexLe] at h1 h2 ⊢
        rcases Nat.lt_trichotomy a.toNat b.toNat with hab | hab | hab
        · rcases Nat.lt_trichotomy b.toNat c.toNat with hbc | hbc | hbc
          · have hac : a.toNat < c.toNat := by omega
            rw [if_pos hac]
          · have hac : a.toNat < c.toNat := by omega
            rw [if_pos hac]
          · have hn : ¬b.toNat < c.toNat := by omega
            rw [if_neg hn, if_pos hbc] at h2
            simp at h2
        · rcases Nat.lt_trichotomy b.toNat c.toNat with hbc | hbc | hbc
          · have hac : a.toNat < c.toNat := by omega
            rw [if_pos hac]
          · have hn1 : ¬a.toNat < b.toNat := by omega
            have hn2 : ¬b.toNat < a.toNat := by omega
            have hn3 : ¬b.toNat < c.toNat := by omega
            have hn4 : ¬c.toNat < b.toNat := by omega
            have hn5 : ¬a.toNat < c.toNat := by omega
            have hn6 : ¬c.toNat < a.toNat := by omega
            rw [if_neg hn1, if_neg hn2] at h1
            rw [if_neg hn3, if_neg hn4] at h2
            rw [if_neg hn5, if_neg hn6]
            exact ih bs cs h1 h2
          · have hn : ¬b.toNat < c.toNat := by omega
            rw [if_neg hn, if_pos hbc] at h2
            simp at h2
        · have hn : ¬a.toNat < b.toNat := by omega
          rw [if_neg hn, if_pos hab] at h1
          simp at h1

theorem lexLe_total : ∀ xs ys : List Char, (lexLe xs ys || lexLe ys xs) = true := by
  intro xs
  induction xs with
  | nil => intro ys; simp [lexLe]
  | cons a as ih =>
    intro ys
    cases ys with
    | nil => simp [lexLe]
    | cons b bs =>
      simp only [lexLe]
      rcases Nat.lt_trichotomy a.toNat b.toNat with hab | hab | hab
      · rw [if_pos hab]
        simp
      · have hn1 : ¬a.toNat < b.toNat := by omega
        have hn2 : ¬b.toNat < a.toNat := by omega
        rw [if_neg hn1, if_neg hn2, if_neg hn2, if_neg hn1]
        exact ih bs
      · have hn1 : ¬a.toNat < b.toNat := by omega
        rw [if_neg hn1, if_pos hab, if_pos hab]
        simp

theorem strLe_trans {a b c : String} (h1 : strLe a b = true) (h2 : strLe b c = true) :
    strLe a c = true :=
  lexLe_trans a.data b.data c.data h1 h2

theorem strLe_total (a b : String) : (strLe a b || strLe b a) = true :=
  lexLe_total a.data b.data

theorem mem_insertLe {α : Type} {le : α → α → Bool} {a x : α} :
    ∀ {l : List α}, x ∈ insertLe le a l ↔ x = a ∨ x ∈ l := by
  intro l
  induction l with
  | nil => simp [insertLe]
  | cons b bs ih =>
    by_cases h : le a b = true
    · simp [insertLe, h]
    · simp only [insertLe, h]
      simp [ih]
      tauto

theorem pairwise_insertLe {α : Type} {le : α → α → Bool}
    (htrans : ∀ x y z, le x y = true → le y z = true → le x z = true)
    (htot : ∀ x y, (le x y || le y x) = true) {a : α} :
    ∀ {l : List α}, l.Pairwise (fun x y => le x y = true) →
      (insertLe le a l).Pairwise (fun x y => le x y = true) := by
  intro l
  induction l with
  | nil => intro _; simp [insertLe]
  | cons b bs ih =>
    intro hp
    rw [List.pairwise_cons] at hp
    obtain ⟨hb, hbs⟩ := hp
    by_cases h : le a b = true
    · simp only [insertLe, h, if_true]
      rw [List.pairwise_cons]
      refine ⟨?_, ?_⟩
      · intro y hy
        rcases List.mem_cons.mp hy with rfl | hy
        · exact h
        · exact htrans a b y h (hb y hy)
      · rw [List.pairwise_cons]
        exact ⟨hb, hbs⟩
    · have hstep : insertLe le a (b :: bs) = b :: insertLe le a bs := by
        simp [insertLe, h]
      rw [hstep, List.pairwise_cons]
      refine ⟨?_, ih hbs⟩
      intro y hy
      rcases mem_insertLe.mp hy with hya | hy
      · rw [hya]
        have := htot a b
        cases hab : le a b with
        | true => exact absurd hab h
        | false => simpa [hab] using this
      · exact hb y hy

theorem pairwise_sortBy {α : Type} {le : α → α → Bool}
    (htrans : ∀ x y z, le x y = true → le y z = true → le x z = true)
    (htot : ∀ x y, (le x y || le y x) = true) :
    ∀ l : List α, (sortBy le l).Pairwise (fun x y => le x y = true) := by
  intro l
  induction l with
  | nil => simp [sortBy]
  | cons a as ih => exact pairwise_insertLe htrans htot ih

/-! ### Claims -/

/-- Claim C1: when both the `cocktailId` and the `ingredientId` query filters
of the CocktailIngredient list operation are supplied and well-formed, the
`ingredientId` filter (evaluated last) silently overwrites the `cocktailId`
filter's constraint on `query._id`: the response is exactly the one obtained
by supplying the `ingredientId` filter alone. -/
theorem c1_double_filter_overwrite (s : Store) (cid iid : String)
    (hc : isValidObjectId cid = true) (hi : isValidObjectId iid = true) :
    CocktailIngredientsController.index s (some cid) (some iid) =
      CocktailIngredientsController.index s none (some iid) := by
  have hc' : (cid == "") = false :=
    beq_eq_false_iff_ne.mpr (isValidObjectId_ne_empty hc)
  have hi' : (iid == "") = false :=
    beq_eq_false_iff_ne.mpr (isValidObjectId_ne_empty hi)
  unfold CocktailIngredientsController.index ciIndexFilter
  simp [truthy, qval, hc', hi', hc, hi]

/-- Witness for C1 at a concrete store and a concrete pair of well-formed
identifiers. -/
theorem c1_witness :
    isValidObjectId "aaaaaaaaaaaaaaaaaaaaaaaa" = true ∧
    isValidObjectId "bbbbbbbbbbbbbbbbbbbbbbbb" = true ∧
    CocktailIngredientsController.index
        { cocktails := [], ingredients := [],
          cocktailIngredients :=
            [{ id := "e1e1e1e1e1e1e1e1e1e1e1e1",
               cocktailId := "aaaaaaaaaaaaaaaaaaaaaaaa",
               ingredientId := "cccccccccccccccccccccccc", quantity := "1 oz" },
             { id := "e2e2e2e2e2e2e2e2e2e2e2e2",
               cocktailId := "dddddddddddddddddddddddd",
               ingredientId := "bbbbbbbbbbbbbbbbbbbbbbbb", quantity := "2 oz" }] }
        (some "aaaaaaaaaaaaaaaaaaaaaaaa") (some "bbbbbbbbbbbbbbbbbbbbbbbb") =
      CocktailIngredientsController.index
        { cocktails := [], ingredients := [],
          cocktailIngredients :=
            [{ id := "e1e1e1e1e1e1e1e1e1e1e1e1",
               cocktailId := "aaaaaaaaaaaaaaaaaaaaaaaa",
               ingredientId := "cccccccccccccccccccccccc", quantity := "1 oz" },
             { id := "e2e2e2e2e2e2e2e2e2e2e2e2",
               cocktailId := "dddddddddddddddddddddddd",
               ingredientId := "bbbbbbbbbbbbbbbbbbbbbbbb", quantity := "2 oz" }] }
        none (some "bbbbbbbbbbbbbbbbbbbbbbbb") :=
  ⟨by decide, by decide,
    c1_double_filter_overwrite _ _ _ (by decide) (by decide)⟩

/-- Claim C2 counterexample: `"abcdefghijkl"` is not a 24-hex-character
string, yet the cocktail get-by-id operation does not return InvalidInput on
it — mongoose's identifier check accepts any 12-character string, so the
operation queries the store and returns NotFound. -/
theorem c2_counterexample :
    is24Hex "abcdefghijkl" = false ∧
    CocktailsController.showById
        { cocktails := [], ingredients := [], cocktailIngredients := [] }
        "abcdefghijkl" = Response.notFound "Cocktail not found" ∧
    (CocktailsController.showById
        { cocktails := [], ingredients := [], cocktailIngredients := [] }
        "abcdefghijkl").isBadRequest = false :=
  ⟨by decide, by decide, by decide⟩

/-- Claim C2 (amended): for every non-empty identifier string that is neither
a 24-hex-character string nor a 12-character string, every id-scoped
operation (get-by-id, update, delete on each of the three resources, and the
list operations' identifier-typed filters) returns InvalidInput and leaves
the store unchanged, without issuing any query to the store. -/
theorem c2_malformed_id_rejected (s : Store) (bad : String)
    (h24 : is24Hex bad = false) (h12 : bad.data.length ≠ 12) (hne : bad ≠ "") :
    CocktailsController.showById s bad = .badRequest "Invalid ID format" ∧
    (∀ n c i, CocktailsController.update s bad n c i =
      (.badRequest "Invalid ID format", s)) ∧
    CocktailsController.destroy s bad = (.badRequest "Invalid ID format", s) ∧
    IngredientsController.showById s bad = .badRequest "Invalid ID format" ∧
    (∀ n d a im, IngredientsController.update s bad n d a im =
      (.badRequest "Invalid ID format", s)) ∧
    IngredientsController.destroy s bad = (.badRequest "Invalid ID format", s) ∧
    CocktailIngredientsController.showById s bad =
      .badRequest "Invalid ID format" ∧
    (∀ cid iid q, CocktailIngredientsController.update s bad cid iid q =
      (.badRequest "Invalid ID format", s)) ∧
    CocktailIngredientsController.destroy s bad =
      (.badRequest "Invalid ID format", s) ∧
    (∀ alc srt, CocktailsController.index s (some bad) alc srt =
      .badRequest "Invalid ingredient ID format") ∧
    (∀ iid, CocktailIngredientsController.index s (some bad) iid =
      .badRequest "Invalid cocktail ID format") ∧
    CocktailIngredientsController.index s none (some bad) =
      .badRequest "Invalid ingredient ID format" := by
  have hv : isValidObjectId bad = false := isValidObjectId_eq_false h24 h12
  have hb : (bad == "") = false := beq_eq_false_iff_ne.mpr hne
  refine ⟨?_, ?_, ?_, ?_, ?_, ?_, ?_, ?_, ?_, ?_, ?_, ?_⟩
  · simp [CocktailsController.showById, hv]
  · intro n c i
    simp [CocktailsController.update, hv]
  · simp [CocktailsController.destroy, hv]
  · simp [IngredientsController.showById, hv]
  · intro n d a im
    simp [IngredientsController.update, hv]
  · simp [IngredientsController.destroy, hv]
  · simp [CocktailIngredientsController.showById, hv]
  · intro cid iid q
    simp [CocktailIngredientsController.update, hv]
  · simp [CocktailIngredientsController.destroy, hv]
  · intro alc srt
    simp [CocktailsController.index, truthy, qval, hv, hb]
  · intro iid
    simp [CocktailIngredientsController.index, truthy, qval, hv, hb]
  · simp [CocktailIngredientsController.index, truthy, qval, hv, hb]

/-- Witness for the amended C2 at the concrete malformed identifier
`"zzz"`. -/
theorem c2_witness :
    is24Hex "zzz" = false ∧ "zzz".data.length ≠ 12 ∧ "zzz" ≠ "" ∧
    CocktailsController.showById
        { cocktails := [], ingredients := [], cocktailIngredients := [] }
        "zzz" = Response.badRequest "Invalid ID format" :=
  ⟨by decide, by decide, by decide,
    (c2_malformed_id_rejected
      { cocktails := [], ingredients := [], cocktailIngredients := [] }
      "zzz" (by decide) (by decide) (by decide)).1⟩

/-- Claim C4: a successful delete of a cocktail leaves zero
CocktailIngredient rows referencing it, and symmetrically for a successful
delete of an ingredient. -/
theorem c4_cascade_delete (s : Store) (cid iid : String) :
    (∀ (msg : String) (s' : Store),
      CocktailsController.destroy s cid = (.ok msg, s') →
      ∀ ci ∈ s'.cocktailIngredients, ¬ci.cocktailId = cid) ∧
    (∀ (msg : String) (s' : Store),
      IngredientsController.destroy s iid = (.ok msg, s') →
      ∀ ci ∈ s'.cocktailIngredients, ¬ci.ingredientId = iid) := by
  constructor
  · intro msg s' h ci hci
    unfold CocktailsController.destroy at h
    split at h
    · simp at h
    · split at h
      · simp at h
      · rename_i c hfind
        have hcid : c.id = cid := by
          simpa [beq_iff_eq] using List.find?_some hfind
        have hs' : s' = { s with
            cocktails := s.cocktails.filter (fun x => !(x.id == cid)),
            cocktailIngredients :=
              s.cocktailIngredients.filter (fun x => !(x.cocktailId == c.id)) } := by
          simpa using (congrArg Prod.snd h).symm
        rw [hs'] at hci
        simp only at hci
        have hnot := (List.mem_filter.mp hci).2
        rw [hcid] at hnot
        simpa [beq_iff_eq] using hnot
  · intro msg s' h ci hci
    unfold IngredientsController.destroy at h
    split at h
    · simp at h
    · split at h
      · simp at h
      · rename_i i hfind
        have hiid : i.id = iid := by
          simpa [beq_iff_eq] using List.find?_some hfind
        have hs' : s' = { s with
            ingredients := s.ingredients.filter (fun x => !(x.id == iid)),
            cocktailIngredients :=
              s.cocktailIngredients.filter (fun x => !(x.ingredientId == i.id)) } := by
          simpa using (congrArg Prod.snd h).symm
        rw [hs'] at hci
        simp only at hci
        have hnot := (List.mem_filter.mp hci).2
        rw [hiid] at hnot
        simpa [beq_iff_eq] using hnot

/-- Witness for C4: deleting a concrete cocktail with two join rows leaves
the surviving row referencing the other cocktail only. -/
theorem c4_witness :
    CocktailsController.destroy
        { cocktails := [{ id := "aaaaaaaaaaaaaaaaaaaaaaaa", name := "Margarita",
                          category := "Cocktail", instructions := "Mix",
                          createdAt := 0 }],
          ingredients := [],
          cocktailIngredients :=
            [{ id := "e1e1e1e1e1e1e1e1e1e1e1e1",
               cocktailId := "aaaaaaaaaaaaaaaaaaaaaaaa",
               ingredientId := "cccccccccccccccccccccccc", quantity := "1 oz" },
             { id := "e2e2e2e2e2e2e2e2e2e2e2e2",
               cocktailId := "dddddddddddddddddddddddd",
               ingredientId := "cccccccccccccccccccccccc", quantity := "2 oz" },
             { id := "e3e3e3e3e3e3e3e3e3e3e3e3",
               cocktailId := "aaaaaaaaaaaaaaaaaaaaaaaa",
               ingredientId := "ffffffffffffffffffffffff", quantity := "3 oz" }] }
        "aaaaaaaaaaaaaaaaaaaaaaaa" =
      (Response.ok "Cocktail and its ingredients were deleted successfully",
        { cocktails := [], ingredients := [],
          cocktailIngredients :=
            [{ id := "e2e2e2e2e2e2e2e2e2e2e2e2",
               cocktailId := "dddddddddddddddddddddddd",
               ingredientId := "cccccccccccccccccccccccc", quantity := "2 oz" }] }) ∧
    ¬({ id := "e2e2e2e2e2e2e2e2e2e2e2e2",
        cocktailId := "dddddddddddddddddddddddd",
        ingredientId := "cccccccccccccccccccccccc",
        quantity := "2 oz" } : CocktailIngredient).cocktailId =
      "aaaaaaaaaaaaaaaaaaaaaaaa" := by
  refine ⟨by decide, ?_⟩
  have h := (c4_cascade_delete
    { cocktails := [{ id := "aaaaaaaaaaaaaaaaaaaaaaaa", name := "Margarita",
                      category := "Cocktail", instructions := "Mix",
                      createdAt := 0 }],
      ingredients := [],
      cocktailIngredients :=
        [{ id := "e1e1e1e1e1e1e1e1e1e1e1e1",
           cocktailId := "aaaaaaaaaaaaaaaaaaaaaaaa",
           ingredientId := "cccccccccccccccccccccccc", quantity := "1 oz" },
         { id := "e2e2e2e2e2e2e2e2e2e2e2e2",
           cocktailId := "dddddddddddddddddddddddd",
           ingredientId := "cccccccccccccccccccccccc", quantity := "2 oz" },
         { id := "e3e3e3e3e3e3e3e3e3e3e3e3",
           cocktailId := "aaaaaaaaaaaaaaaaaaaaaaaa",
           ingredientId := "ffffffffffffffffffffffff", quantity := "3 oz" }] }
    "aaaaaaaaaaaaaaaaaaaaaaaa" "x").1
    "Cocktail and its ingredients were deleted successfully"
    { cocktails := [], ingredients := [],
      cocktailIngredients :=
        [{ id := "e2e2e2e2e2e2e2e2e2e2e2e2",
           cocktailId := "dddddddddddddddddddddddd",
           ingredientId := "cccccccccccccccccccccccc", quantity := "2 oz" }] }
    (by decide)
  exact h _ (by decide)

/-- Claim C5: creating a CocktailIngredient with well-formed ids whose
referenced cocktail or ingredient is absent from the store returns NotFound
and persists nothing. -/
theorem c5_create_missing_reference (s : Store) (newId cid iid q : String)
    (hc : isValidObjectId cid = true) (hi : isValidObjectId iid = true)
    (hq : q ≠ "")
    (hmiss : (∀ c ∈ s.cocktails, ¬c.id = cid) ∨
      (∀ i ∈ s.ingredients, ¬i.id = iid)) :
    (CocktailIngredientsController.store s newId
      (some cid) (some iid) (some q)).fst.isNotFound = true ∧
    (CocktailIngredientsController.store s newId
      (some cid) (some iid) (some q)).snd = s := by
  have hc' : (cid == "") = false :=
    beq_eq_false_iff_ne.mpr (isValidObjectId_ne_empty hc)
  have hi' : (iid == "") = false :=
    beq_eq_false_iff_ne.mpr (isValidObjectId_ne_empty hi)
  have hq' : (q == "") = false := beq_eq_false_iff_ne.mpr hq
  rcases hmiss with hm | hm
  · have hfind : s.cocktails.find? (fun c => c.id == cid) = none :=
      List.find?_eq_none.mpr (by
        intro x hx
        simpa [beq_iff_eq] using hm x hx)
    simp [CocktailIngredientsController.store, truthy, qval, hc', hi', hq',
      hc, hi, hfind, Response.isNotFound]
  · have hfind : s.ingredients.find? (fun i => i.id == iid) = none :=
      List.find?_eq_none.mpr (by
        intro x hx
        simpa [beq_iff_eq] using hm x hx)
    cases hcf : s.cocktails.find? (fun c => c.id == cid) with
    | none =>
      simp [CocktailIngredientsController.store, truthy, qval, hc', hi', hq',
        hc, hi, hcf, Response.isNotFound]
    | some c =>
      simp [CocktailIngredientsController.store, truthy, qval, hc', hi', hq',
        hc, hi, hcf, hfind, Response.isNotFound]

/-- Witness for C5: a well-formed create whose ingredient id references no
stored ingredient is rejected with NotFound and the store is unchanged. -/
theorem c5_witness :
    (CocktailIngredientsController.store
      { cocktails := [{ id := "aaaaaaaaaaaaaaaaaaaaaaaa", name := "Margarita",
                        category := "Cocktail", instructions := "Mix",
                        createdAt := 0 }],
        ingredients := [], cocktailIngredients := [] }
      "e1e1e1e1e1e1e1e1e1e1e1e1" (some "aaaaaaaaaaaaaaaaaaaaaaaa")
      (some "bbbbbbbbbbbbbbbbbbbbbbbb") (some "2 oz")).fst.isNotFound = true ∧
    (CocktailIngredientsController.store
      { cocktails := [{ id := "aaaaaaaaaaaaaaaaaaaaaaaa", name := "Margarita",
                        category := "Cocktail", instructions := "Mix",
                        createdAt := 0 }],
        ingredients := [], cocktailIngredients := [] }
      "e1e1e1e1e1e1e1e1e1e1e1e1" (some "aaaaaaaaaaaaaaaaaaaaaaaa")
      (some "bbbbbbbbbbbbbbbbbbbbbbbb") (some "2 oz")).snd =
      { cocktails := [{ id := "aaaaaaaaaaaaaaaaaaaaaaaa", name := "Margarita",
                        category := "Cocktail", instructions := "Mix",
                        createdAt := 0 }],
        ingredients := [], cocktailIngredients := [] } :=
  c5_create_missing_reference _ _ _ _ _ (by decide) (by decide) (by decide)
    (Or.inr (by intro i hi; simp at hi))

/-- Claim C6 counterexample: with an empty ingredient collection,
`GET /ingredients` returns 200 with an empty array, not NotFound. -/
theorem c6_counterexample :
    IngredientsController.index
        { cocktails := [], ingredients := [], cocktailIngredients := [] } =
      Response.ok ([] : List Ingredient) ∧
    (IngredientsController.index
        { cocktails := [], ingredients := [], cocktailIngredients := [] }).isNotFound =
      false :=
  ⟨rfl, rfl⟩

/-- Claim C6 (amended): the ingredient list operation takes no filters and
performs no empty-result check: it always returns 200 with the full
ingredient collection, an empty array included. -/
theorem c6_ingredient_list_always_ok (s : Store) :
    IngredientsController.index s = Response.ok s.ingredients := rfl

/-- Spec-side predicate for C3: the cocktail is linked, through some
CocktailIngredient row, to at least one ingredient whose `isAlcoholic` flag
is true. -/
def linkedToAlcoholic (s : Store) (c : Cocktail) : Bool :=
  s.cocktailIngredients.any (fun ci => ci.cocktailId == c.id &&
    s.ingredients.any (fun i => i.id == ci.ingredientId && i.isAlcoholic))

theorem linked_iff (s : Store) (c : Cocktail) :
    (alcoholicCocktailIds s).contains c.id = linkedToAlcoholic s c := by
  rw [Bool.eq_iff_iff]
  unfold alcoholicCocktailIds alcoholicIngredientIds linkedToAlcoholic
  simp only [contains_iff, List.any_eq_true, List.mem_dedup, List.mem_map,
    List.mem_filter, beq_iff_eq, Bool.and_eq_true]
  constructor
  · rintro ⟨ci, ⟨hci, hmem⟩, hcid⟩
    obtain ⟨i, ⟨hi, halc⟩, hieq⟩ := hmem
    exact ⟨ci, hci, hcid, i, hi, hieq, halc⟩
  · rintro ⟨ci, hci, hcid, i, hi, hieq, halc⟩
    exact ⟨ci, ⟨hci, ⟨i, ⟨hi, halc⟩, hieq⟩⟩, hcid⟩

/-- Claim C3: listing cocktails with `isAlcoholic=true` returns exactly the
cocktails linked (via CocktailIngredient rows) to at least one ingredient
flagged alcoholic, and `isAlcoholic=false` returns exactly the complement of
that set among existing cocktails (cocktails with no ingredients included);
an empty result set yields NotFound. -/
theorem c3_alcoholic_filter (s : Store) :
    (CocktailsController.index s none (some "true") none =
      if (s.cocktails.filter (fun c => linkedToAlcoholic s c)).isEmpty
      then Response.notFound "No cocktails found matching the filters"
      else Response.ok (s.cocktails.filter (fun c => linkedToAlcoholic s c))) ∧
    (CocktailsController.index s none (some "false") none =
      if (s.cocktails.filter (fun c => !linkedToAlcoholic s c)).isEmpty
      then Response.notFound "No cocktails found matching the filters"
      else Response.ok (s.cocktails.filter (fun c => !linkedToAlcoholic s c))) := by
  have h1 : s.cocktails.filter
        (fun c => matchesId (IdFilter.inIds (alcoholicCocktailIds s)) c.id) =
      s.cocktails.filter (fun c => linkedToAlcoholic s c) :=
    List.filter_congr (fun c _ => linked_iff s c)
  have h2 : s.cocktails.filter
        (fun c => matchesId (IdFilter.ninIds (alcoholicCocktailIds s)) c.id) =
      s.cocktails.filter (fun c => !linkedToAlcoholic s c) :=
    List.filter_congr (fun c _ => by
      simp only [matchesId]
      rw [linked_iff])
  constructor
  · have hred : CocktailsController.index s none (some "true") none =
        listResponse "No cocktails found matching the filters"
          (s.cocktails.filter
            (fun c => matchesId (IdFilter.inIds (alcoholicCocktailIds s)) c.id)) := rfl
    rw [hred, h1]
    rfl
  · have hred : CocktailsController.index s none (some "false") none =
        listResponse "No cocktails found matching the filters"
          (s.cocktails.filter
            (fun c => matchesId (IdFilter.ninIds (alcoholicCocktailIds s)) c.id)) := rfl
    rw [hred, h2]
    rfl

/-- Claim C7: ingredient creation returns InvalidInput and persists nothing
whenever `name`, `description` or `image` is absent or falsy or `isAlcoholic`
is not of boolean type — so `isAlcoholic = false` passes validation while an
absent or string-valued `isAlcoholic` fails — and when all four checks pass
the ingredient is persisted and returned with Created. -/
theorem c7_ingredient_create_validation (s : Store) (newId : String)
    (n d a i : Option Val) :
    ((IngredientsController.store s newId n d a i).fst.isBadRequest = true ↔
      ¬(truthyVal n = true ∧ truthyVal d = true ∧ isBoolVal a = true ∧
        truthyVal i = true)) ∧
    ((IngredientsController.store s newId n d a i).fst.isBadRequest = true →
      (IngredientsController.store s newId n d a i).snd = s) ∧
    (truthyVal n = true → truthyVal d = true → isBoolVal a = true →
      truthyVal i = true →
      (IngredientsController.store s newId n d a i).fst.isCreated = true) ∧
    (∀ (ns ds is' : String) (b : Bool), n = some (.vStr ns) → ns ≠ "" →
      d = some (.vStr ds) → ds ≠ "" → a = some (.vBool b) →
      i = some (.vStr is') → is' ≠ "" →
      (IngredientsController.store s newId n d a i).fst =
        Response.created { id := newId, name := ns, description := some ds,
                           isAlcoholic := b, image := some is' } ∧
      (IngredientsController.store s newId n d a i).snd.ingredients =
        s.ingredients ++ [{ id := newId, name := ns, description := some ds,
                            isAlcoholic := b, image := some is' }]) := by
  refine ⟨?_, ?_, ?_, ?_⟩
  · cases h1 : truthyVal n <;> cases h2 : truthyVal d <;>
      cases h3 : isBoolVal a <;> cases h4 : truthyVal i <;>
      simp [IngredientsController.store, h1, h2, h3, h4, Response.isBadRequest]
  · cases h1 : truthyVal n <;> cases h2 : truthyVal d <;>
      cases h3 : isBoolVal a <;> cases h4 : truthyVal i <;>
      simp [IngredientsController.store, h1, h2, h3, h4, Response.isBadRequest]
  · intro h1 h2 h3 h4
    simp [IngredientsController.store, h1, h2, h3, h4, Response.isCreated]
  · intro ns ds is' b hn hns hd hds ha hi his
    subst hn
    subst hd
    subst ha
    subst hi
    have hns' : (ns == "") = false := beq_eq_false_iff_ne.mpr hns
    have hds' : (ds == "") = false := beq_eq_false_iff_ne.mpr hds
    have his' : (is' == "") = false := beq_eq_false_iff_ne.mpr his
    constructor <;>
      simp [IngredientsController.store, truthyVal, isBoolVal, valToString,
        boolOf, hns', hds', his']

/-- Witness for C7: a concrete create with `isAlcoholic = false` passes and
is persisted, while an otherwise identical create with a string-valued
`isAlcoholic` is rejected with InvalidInput. -/
theorem c7_witness :
    (IngredientsController.store
        { cocktails := [], ingredients := [], cocktailIngredients := [] }
        "bbbbbbbbbbbbbbbbbbbbbbbb" (some (.vStr "Lime"))
        (some (.vStr "A citrus fruit")) (some (.vBool false))
        (some (.vStr "lime.png"))).fst =
      Response.created { id := "bbbbbbbbbbbbbbbbbbbbbbbb", name := "Lime",
                         description := some "A citrus fruit",
                         isAlcoholic := false, image := some "lime.png" } ∧
    (IngredientsController.store
        { cocktails := [], ingredients := [], cocktailIngredients := [] }
        "bbbbbbbbbbbbbbbbbbbbbbbb" (some (.vStr "Lime"))
        (some (.vStr "A citrus fruit")) (some (.vStr "false"))
        (some (.vStr "lime.png"))).fst.isBadRequest = true := by
  constructor
  · exact ((c7_ingredient_create_validation
      { cocktails := [], ingredients := [], cocktailIngredients := [] }
      "bbbbbbbbbbbbbbbbbbbbbbbb" (some (.vStr "Lime"))
      (some (.vStr "A citrus fruit")) (some (.vBool false))
      (some (.vStr "lime.png"))).2.2.2 "Lime" "A citrus fruit" "lime.png"
      false rfl (by decide) rfl (by decide) rfl rfl (by decide)).1
  · exact (c7_ingredient_create_validation
      { cocktails := [], ingredients := [], cocktailIngredients := [] }
      "bbbbbbbbbbbbbbbbbbbbbbbb" (some (.vStr "Lime"))
      (some (.vStr "A citrus fruit")) (some (.vStr "false"))
      (some (.vStr "lime.png"))).1.mpr (by
        intro hcontra
        exact absurd hcontra.2.2.1 (by decide))

/-- Claim C8 counterexample: `"constructor"` is outside the enum
`name`/`category`/`date`, yet the list operation does not return
InvalidInput on `sort=constructor` — the lookup `sortOptions["constructor"]`
finds the truthy inherited `Object.prototype.constructor`, so the 400 branch
is skipped and the query runs (here, 404 on an empty store). -/
theorem c8_counterexample :
    ("constructor" ∉ (["name", "category", "date"] : List String)) ∧
    CocktailsController.index
        { cocktails := [], ingredients := [], cocktailIngredients := [] }
        none none (some "constructor") =
      Response.notFound "No cocktails found matching the filters" ∧
    (CocktailsController.index
        { cocktails := [], ingredients := [], cocktailIngredients := [] }
        none none (some "constructor")).isBadRequest = false :=
  ⟨by decide, by decide, by decide⟩

/-- Claim C8 (amended): listing cocktails with `sort=name` returns the
result in non-decreasing lexicographic order of the `name` field; and every
non-empty `sort` value outside the enum `name`/`category`/`date` that is
not the name of an inherited `Object.prototype` property (`constructor`,
`hasOwnProperty`, `isPrototypeOf`, `propertyIsEnumerable`,
`toLocaleString`, `toString`, `valueOf`, `__defineGetter__`,
`__defineSetter__`, `__lookupGetter__`, `__lookupSetter__`, `__proto__`)
makes the list operation return InvalidInput (400). -/
theorem c8_sort_order_and_validation :
    (∀ (s : Store) (ing alc : Option String) (l : List Cocktail),
      CocktailsController.index s ing alc (some "name") = Response.ok l →
      l.Pairwise (fun a b => strLe a.name b.name = true)) ∧
    (∀ (s : Store) (v : String) (ing alc : Option String),
      v ∉ (["name", "category", "date"] : List String) →
      v ∉ (["constructor", "hasOwnProperty", "isPrototypeOf",
            "propertyIsEnumerable", "toLocaleString", "toString", "valueOf",
            "__defineGetter__", "__defineSetter__", "__lookupGetter__",
            "__lookupSetter__", "__proto__"] : List String) →
      v ≠ "" →
      (CocktailsController.index s ing alc (some v)).isBadRequest = true) := by
  have htr : ∀ x y z : Cocktail, cocktailLe "name" x y = true →
      cocktailLe "name" y z = true → cocktailLe "name" x z = true :=
    fun _ _ _ hxy hyz => strLe_trans hxy hyz
  have hto : ∀ x y : Cocktail,
      (cocktailLe "name" x y || cocktailLe "name" y x) = true :=
    fun x y => strLe_total x.name y.name
  constructor
  · intro s ing alc l h
    unfold CocktailsController.index at h
    split at h
    · exact absurd h (by simp)
    · split at h
      · exact absurd h (by simp)
      · unfold listResponse at h
        split at h
        · exact absurd h (by simp)
        · injection h with hl
          rw [← hl]
          exact (pairwise_sortBy htr hto _).imp (fun hab => hab)
  · intro s v ing alc hv hp hne
    have hsf : sortFieldOwn v = none := by
      unfold sortFieldOwn
      split <;> simp_all
    have hpk : protoKey v = false := by
      simp only [List.mem_cons, List.not_mem_nil, or_false, not_or] at hp
      simp [protoKey, hp.1, hp.2.1, hp.2.2.1, hp.2.2.2.1, hp.2.2.2.2.1,
        hp.2.2.2.2.2.1, hp.2.2.2.2.2.2.1, hp.2.2.2.2.2.2.2.1,
        hp.2.2.2.2.2.2.2.2.1, hp.2.2.2.2.2.2.2.2.2.1,
        hp.2.2.2.2.2.2.2.2.2.2.1, hp.2.2.2.2.2.2.2.2.2.2.2]
    have hne' : (v == "") = false := beq_eq_false_iff_ne.mpr hne
    unfold CocktailsController.index
    cases hfirst : (truthy ing && !isValidObjectId (qval ing)) <;>
      simp [hfirst, truthy, qval, hne', hsf, hpk, sortLookupTruthy,
        Response.isBadRequest]

/-- Witness for the amended C8: a concrete two-cocktail store is returned
sorted by name, and the sort value `"bogus"` is rejected. -/
theorem c8_witness :
    List.Pairwise (fun a b => strLe a.name b.name = true)
      [({ id := "bbbbbbbbbbbbbbbbbbbbbbbb", name := "Amaretto Sour",
          category := "Sour", instructions := "Shake",
          createdAt := 5 } : Cocktail),
       { id := "aaaaaaaaaaaaaaaaaaaaaaaa", name := "Margarita",
         category := "Cocktail", instructions := "Mix", createdAt := 0 }] ∧
    (CocktailsController.index
        { cocktails := [], ingredients := [], cocktailIngredients := [] }
        none none (some "bogus")).isBadRequest = true := by
  constructor
  · exact c8_sort_order_and_validation.1
      { cocktails :=
          [{ id := "aaaaaaaaaaaaaaaaaaaaaaaa", name := "Margarita",
             category := "Cocktail", instructions := "Mix", createdAt := 0 },
           { id := "bbbbbbbbbbbbbbbbbbbbbbbb", name := "Amaretto Sour",
             category := "Sour", instructions := "Shake", createdAt := 5 }],
        ingredients := [], cocktailIngredients := [] }
      none none _ (by decide)
  · exact c8_sort_order_and_validation.2
      { cocktails := [], ingredients := [], cocktailIngredients := [] }
      "bogus" none none (by decide) (by decide) (by decide)

/-- Claim C9: in the cocktails list operation, a well-formed `ingredient`
filter supplied together with an `isAlcoholic` filter has no effect on the
result: the `isAlcoholic` branch overwrites the same `query._id` field. -/
theorem c9_cocktails_filter_overwrite (s : Store) (ing alc : String)
    (sort : Option String) (hi : isValidObjectId ing = true) (ha : alc ≠ "") :
    CocktailsController.index s (some ing) (some alc) sort =
      CocktailsController.index s none (some alc) sort := by
  have hi' : (ing == "") = false :=
    beq_eq_false_iff_ne.mpr (isValidObjectId_ne_empty hi)
  have ha' : (alc == "") = false := beq_eq_false_iff_ne.mpr ha
  unfold CocktailsController.index cocktailsIndexFilter
  simp [truthy, qval, hi', ha', hi]

/-- Witness for C9 at a concrete store where the ingredient filter alone
would select a different set than the isAlcoholic filter. -/
theorem c9_witness :
    isValidObjectId "cccccccccccccccccccccccc" = true ∧ "true" ≠ "" ∧
    CocktailsController.index
        { cocktails := [{ id := "aaaaaaaaaaaaaaaaaaaaaaaa", name := "Margarita",
                          category := "Cocktail", instructions := "Mix",
                          createdAt := 0 }],
          ingredients := [{ id := "cccccccccccccccccccccccc", name := "Lime",
                            description := some "Citrus", isAlcoholic := false,
                            image := some "lime.png" }],
          cocktailIngredients :=
            [{ id := "e1e1e1e1e1e1e1e1e1e1e1e1",
               cocktailId := "aaaaaaaaaaaaaaaaaaaaaaaa",
               ingredientId := "cccccccccccccccccccccccc", quantity := "1 oz" }] }
        (some "cccccccccccccccccccccccc") (some "true") none =
      CocktailsController.index
        { cocktails := [{ id := "aaaaaaaaaaaaaaaaaaaaaaaa", name := "Margarita",
                          category := "Cocktail", instructions := "Mix",
                          createdAt := 0 }],
          ingredients := [{ id := "cccccccccccccccccccccccc", name := "Lime",
                            description := some "Citrus", isAlcoholic := false,
                            image := some "lime.png" }],
          cocktailIngredients :=
            [{ id := "e1e1e1e1e1e1e1e1e1e1e1e1",
               cocktailId := "aaaaaaaaaaaaaaaaaaaaaaaa",
               ingredientId := "cccccccccccccccccccccccc", quantity := "1 oz" }] }
        none (some "true") none :=
  ⟨by decide, by decide,
    c9_cocktails_filter_overwrite _ _ _ none (by decide) (by decide)⟩

/-- Claim C10: the CocktailIngredient update operation checks neither the
existence nor the referent of the ids it writes: updating an existing row to
a well-formed cocktail id absent from the store succeeds with 200 and leaves
a dangling reference. -/
theorem c10_update_dangling_reference :
    (CocktailIngredientsController.update
        { cocktails := [{ id := "aaaaaaaaaaaaaaaaaaaaaaaa", name := "Margarita",
                          category := "Cocktail", instructions := "Mix",
                          createdAt := 0 }],
          ingredients := [{ id := "bbbbbbbbbbbbbbbbbbbbbbbb", name := "Lime",
                            description := some "Citrus", isAlcoholic := false,
                            image := some "lime.png" }],
          cocktailIngredients :=
            [{ id := "cccccccccccccccccccccccc",
               cocktailId := "aaaaaaaaaaaaaaaaaaaaaaaa",
               ingredientId := "bbbbbbbbbbbbbbbbbbbbbbbb", quantity := "2 oz" }] }
        "cccccccccccccccccccccccc" (some "dddddddddddddddddddddddd") none none).fst =
      Response.ok { id := "cccccccccccccccccccccccc",
                    cocktailId := "dddddddddddddddddddddddd",
                    ingredientId := "bbbbbbbbbbbbbbbbbbbbbbbb",
                    quantity := "2 oz" } ∧
    (CocktailIngredientsController.update
        { cocktails := [{ id := "aaaaaaaaaaaaaaaaaaaaaaaa", name := "Margarita",
                          category := "Cocktail", instructions := "Mix",
                          createdAt := 0 }],
          ingredients := [{ id := "bbbbbbbbbbbbbbbbbbbbbbbb", name := "Lime",
                            description := some "Citrus", isAlcoholic := false,
                            image := some "lime.png" }],
          cocktailIngredients :=
            [{ id := "cccccccccccccccccccccccc",
               cocktailId := "aaaaaaaaaaaaaaaaaaaaaaaa",
               ingredientId := "bbbbbbbbbbbbbbbbbbbbbbbb", quantity := "2 oz" }] }
        "cccccccccccccccccccccccc" (some "dddddddddddddddddddddddd") none none).snd.cocktailIngredients =
      [{ id := "cccccccccccccccccccccccc",
         cocktailId := "dddddddddddddddddddddddd",
         ingredientId := "bbbbbbbbbbbbbbbbbbbbbbbb", quantity := "2 oz" }] ∧
    ((CocktailIngredientsController.update
        { cocktails := [{ id := "aaaaaaaaaaaaaaaaaaaaaaaa", name := "Margarita",
                          category := "Cocktail", instructions := "Mix",
                          createdAt := 0 }],
          ingredients := [{ id := "bbbbbbbbbbbbbbbbbbbbbbbb", name := "Lime",
                            description := some "Citrus", isAlcoholic := false,
                            image := some "lime.png" }],
          cocktailIngredients :=
            [{ id := "cccccccccccccccccccccccc",
               cocktailId := "aaaaaaaaaaaaaaaaaaaaaaaa",
               ingredientId := "bbbbbbbbbbbbbbbbbbbbbbbb", quantity := "2 oz" }] }
        "cccccccccccccccccccccccc" (some "dddddddddddddddddddddddd") none none).snd.cocktails.all
      (fun c => !(c.id == "dddddddddddddddddddddddd"))) = true :=
  ⟨by decide, by decide, by decide⟩

end CocktailsAPI
